import Mathlib

/-!
Verification of the five-stage textual migration pipeline implemented in
fix_type_checker.py.  The script rewrites one source file by applying ten
regular-expression substitutions grouped into five stage functions; every
pattern used by the script is deterministic (each greedy character-class
repetition is immediately followed by a literal whose character is outside
the class, and the one alternation consists of pairwise non-prefix literal
words), so the Python regex-substitution semantics is captured exactly by
the possessive scanner implemented below.  Source text is modelled as a
list of characters.
-/

set_option maxRecDepth 10000

namespace FixTC

/-- Convert a string literal to the character-list representation of text. -/
def lc (s : String) : List Char := s.toList

/-- ASCII word character: the class matched by the word metacharacter in the
source patterns (letter, digit or underscore). -/
def isWordChar (c : Char) : Bool := c.isAlphanum || c == '_'

/-- ASCII whitespace: the class matched by the whitespace metacharacter. -/
def isSpaceChar (c : Char) : Bool :=
  c == ' ' || c == '\t' || c == '\n' || c == '\r' || c == '\x0b' || c == '\x0c'

/-- Lowercase ASCII letter or underscore, the bracket class of the
symbol-table lookup pattern. -/
def isLowerUnd (c : Char) : Bool := (97 ≤ c.toNat && c.toNat ≤ 122) || c == '_'

/-- Any character other than a comma, the bracket class used for the first
argument of the factory-call patterns. -/
def notComma (c : Char) : Bool := c != ','

/-- One token of a pattern: a literal character, a greedy one-or-more or
zero-or-more character-class repetition, an ordered alternation of literal
words, or a capture-group delimiter. -/
inductive RTok where
  | lit : Char → RTok
  | plusCl : (Char → Bool) → RTok
  | starCl : (Char → Bool) → RTok
  | altLit : List (List Char) → RTok
  | gOpen : RTok
  | gClose : RTok

/-- Strip a literal word from the front of the text, returning the rest. -/
def dropLit : List Char → List Char → Option (List Char)
  | [], s => some s
  | _ :: _, [] => none
  | p :: ps, c :: cs => if p = c then dropLit ps cs else none

/-- First alternative of an ordered alternation that is a literal front of
the text, together with the rest of the text. -/
def firstAlt (alts : List (List Char)) (s : List Char) :
    Option (List Char × List Char) :=
  alts.findSome? (fun a => (dropLit a s).map (fun r => (a, r)))

/-- Match a token sequence against the front of the text.  The third
argument accumulates the characters of the currently open capture group,
the fourth the completed groups in order.  Returns the unconsumed rest of
the text and the completed groups.  Greedy repetitions are matched
possessively, which coincides with backtracking semantics for every pattern
of the source script (see the file header). -/
def matchToks : List RTok → List Char → Option (List Char) → List (List Char) →
    Option (List Char × List (List Char))
  | [], s, _, gs => some (s, gs)
  | RTok.lit _ :: _, [], _, _ => none
  | RTok.lit a :: ts, c :: cs, buf, gs =>
      if a = c then matchToks ts cs (buf.map (fun b => b ++ [c])) gs else none
  | RTok.plusCl p :: ts, s, buf, gs =>
      let run := s.takeWhile p
      if run.isEmpty then none
      else matchToks ts (s.dropWhile p) (buf.map (fun b => b ++ run)) gs
  | RTok.starCl p :: ts, s, buf, gs =>
      matchToks ts (s.dropWhile p) (buf.map (fun b => b ++ s.takeWhile p)) gs
  | RTok.altLit alts :: ts, s, buf, gs =>
      match firstAlt alts s with
      | none => none
      | some (a, r) => matchToks ts r (buf.map (fun b => b ++ a)) gs
  | RTok.gOpen :: ts, s, _, gs => matchToks ts s (some []) gs
  | RTok.gClose :: ts, s, buf, gs =>
      match buf with
      | none => none
      | some g => matchToks ts s none (gs ++ [g])

/-- One item of a replacement template: literal text or a captured-group
reference (1-based, mirroring the source's group numbers). -/
inductive TItem where
  | lit : List Char → TItem
  | grp : Nat → TItem

/-- Instantiate a replacement template with the captured groups. -/
def applyTmpl (tm : List TItem) (gs : List (List Char)) : List Char :=
  (tm.map (fun it => match it with
    | TItem.lit cs => cs
    | TItem.grp n => gs.getD (n - 1) [])).flatten

/-- Fuelled left-to-right scan replacing every non-overlapping match, the
semantics of a global regex substitution: at each position try the pattern;
on a match emit the instantiated template and continue after the matched
region (replacement text is never rescanned), otherwise emit the character
and move one position right.  Every pattern of the script consumes at least
one character, so fuel equal to the text length never runs out. -/
def reSubFuel (p : List RTok) (tm : List TItem) : Nat → List Char → List Char
  | 0, s => s
  | _ + 1, [] => []
  | fuel + 1, c :: cs =>
      match matchToks p (c :: cs) none [] with
      | some (rest, gs) => applyTmpl tm gs ++ reSubFuel p tm fuel rest
      | none => c :: reSubFuel p tm fuel cs

/-- Global substitution of a pattern by a template, the model of one
re.sub call of the source. -/
def reSub (p : List RTok) (tm : List TItem) (s : List Char) : List Char :=
  reSubFuel p tm s.length s

/-- Whether the pattern matches at the very front of the text. -/
def hasMatchAt (p : List RTok) (s : List Char) : Bool :=
  (matchToks p s none []).isSome

/-- Whether the pattern matches anywhere in the text. -/
def hasMatch (p : List RTok) : List Char → Bool
  | [] => hasMatchAt p []
  | c :: cs => hasMatchAt p (c :: cs) || hasMatch p cs

/-- Number of positions of the text at which the literal word occurs. -/
def countSub (p : List Char) : List Char → Nat
  | [] => 0
  | c :: cs => (if (dropLit p (c :: cs)).isSome then 1 else 0) + countSub p cs

/-- Literal words of a pattern lifted to tokens. -/
def lits (s : String) : List RTok := (s.toList).map RTok.lit

/-- Literal text of a replacement template. -/
def tlit (s : String) : TItem := TItem.lit s.toList

/- ### The ten patterns and templates of the source script -/

/-- Pattern of the struct-declaration header (add_interner_to_struct,
first substitution). -/
def pat_struct_header : List RTok := lits "pub struct TypeChecker \x7b"

/-- Replacement appending the lifetime marker to the struct header. -/
def tmpl_struct_header : List TItem := [tlit "pub struct TypeChecker<\x27a> \x7b"]

/-- Pattern of the anchor field line (add_interner_to_struct, second
substitution): one capture group around the whole line. -/
def pat_field_anchor : List RTok :=
  [RTok.gOpen] ++ lits "    diagnostic_handler: Arc<dyn DiagnosticHandler>,\n"
    ++ [RTok.gClose]

/-- Replacement inserting the two new field lines after the anchor line. -/
def tmpl_field_anchor : List TItem :=
  [TItem.grp 1,
   tlit "    interner: &\x27a crate::string_interner::StringInterner,\n    common: &\x27a crate::string_interner::CommonIdentifiers,\n"]

/-- Pattern of the old constructor signature (update_constructor, first
substitution). -/
def pat_ctor_sig : List RTok :=
  lits "pub fn new(diagnostic_handler: Arc<dyn DiagnosticHandler>) -> Self \x7b"

/-- Replacement: the new constructor signature with the two added
parameters. -/
def tmpl_ctor_sig : List TItem :=
  [tlit "pub fn new(\n        diagnostic_handler: Arc<dyn DiagnosticHandler>,\n        interner: &\x27a crate::string_interner::StringInterner,\n        common: &\x27a crate::string_interner::CommonIdentifiers,\n    ) -> Self \x7b"]

/-- Pattern of the close of the field-initialization block
(update_constructor, second substitution): two capture groups. -/
def pat_ctor_init : List RTok :=
  [RTok.gOpen] ++ lits "            diagnostic_handler,\n"
    ++ [RTok.gClose, RTok.gOpen] ++ lits "        \x7d;" ++ [RTok.gClose]

/-- Replacement inserting the two field-assignment lines before the closing
delimiter. -/
def tmpl_ctor_init : List TItem :=
  [TItem.grp 1, tlit "            interner,\n            common,\n", TItem.grp 2]

/-- Pattern of a Lexer factory call: a comma-free first argument captured
as group 1, then a comma, optional whitespace and the literal second
argument immediately before the closing parenthesis
(fix_lexer_parser_calls, first substitution). -/
def pat_lexer_call : List RTok :=
  lits "Lexer::new(" ++ [RTok.gOpen, RTok.plusCl notComma, RTok.gClose,
    RTok.lit ',', RTok.starCl isSpaceChar] ++ lits "handler.clone())"

/-- Replacement adding the interner as third Lexer argument. -/
def tmpl_lexer_call : List TItem :=
  [tlit "Lexer::new(", TItem.grp 1, tlit ", handler.clone(), &self.interner)"]

/-- Pattern of a Parser factory call (fix_lexer_parser_calls, second
substitution). -/
def pat_parser_call : List RTok :=
  lits "Parser::new(" ++ [RTok.gOpen, RTok.plusCl notComma, RTok.gClose,
    RTok.lit ',', RTok.starCl isSpaceChar] ++ lits "handler.clone())"

/-- Replacement adding interner and common as third and fourth Parser
arguments. -/
def tmpl_parser_call : List TItem :=
  [tlit "Parser::new(", TItem.grp 1,
   tlit ", handler.clone(), &self.interner, &self.common)"]

/-- Pattern 1 of fix_stringid_conversions: two-level field-chain clone,
two word-run capture groups. -/
def pat_conv_two : List RTok :=
  [RTok.gOpen, RTok.plusCl isWordChar, RTok.gClose, RTok.lit '.',
   RTok.gOpen, RTok.plusCl isWordChar, RTok.gClose] ++ lits ".node.clone()"

/-- Replacement of pattern 1: resolver call over the two-level chain. -/
def tmpl_conv_two : List TItem :=
  [tlit "self.interner.resolve(", TItem.grp 1, tlit ".", TItem.grp 2,
   tlit ".node).to_string()"]

/-- Pattern 2 of fix_stringid_conversions: single-level field-chain
clone. -/
def pat_conv_one : List RTok :=
  [RTok.gOpen, RTok.plusCl isWordChar, RTok.gClose] ++ lits ".node.clone()"

/-- Replacement of pattern 2: resolver call over the one-level chain. -/
def tmpl_conv_one : List TItem :=
  [tlit "self.interner.resolve(", TItem.grp 1, tlit ".node).to_string()"]

/-- Pattern 3 of fix_stringid_conversions: symbol-table lookup whose
argument is a field chain ending in one of three accessor names; the group
spans the whole chain. -/
def pat_lookup : List RTok :=
  lits "self.symbol_table.lookup(&" ++ [RTok.gOpen, RTok.plusCl isLowerUnd,
    RTok.lit '.', RTok.altLit [lc "name", lc "local", lc "key"]]
    ++ lits ".node" ++ [RTok.gClose, RTok.lit ')']

/-- Replacement of pattern 3: the argument is resolved before lookup. -/
def tmpl_lookup : List TItem :=
  [tlit "self.symbol_table.lookup(self.interner.resolve(", TItem.grp 1,
   tlit "))"]

/-- Pattern of the impl-block header (fix_impl_block). -/
def pat_impl_header : List RTok := lits "impl TypeChecker \x7b"

/-- Replacement propagating the lifetime marker to the impl header. -/
def tmpl_impl_header : List TItem :=
  [tlit "impl<\x27a> TypeChecker<\x27a> \x7b"]

/- ### The five stage functions -/

/-- Stage of section 4.1 (Struct Augmentation): add the lifetime parameter
to the struct declaration, then insert the interner and common fields after
the diagnostic_handler anchor line. -/
def add_interner_to_struct (content : List Char) : List Char :=
  reSub pat_field_anchor tmpl_field_anchor
    (reSub pat_struct_header tmpl_struct_header content)

/-- Stage of section 4.2 (Constructor Augmentation): rewrite the
constructor signature, then extend the struct-initialization block. -/
def update_constructor (content : List Char) : List Char :=
  reSub pat_ctor_init tmpl_ctor_init (reSub pat_ctor_sig tmpl_ctor_sig content)

/-- Stage of section 4.3 (Call-Site Parameter Injection): add the missing
arguments to Lexer factory calls, then to Parser factory calls. -/
def fix_lexer_parser_calls (content : List Char) : List Char :=
  reSub pat_parser_call tmpl_parser_call
    (reSub pat_lexer_call tmpl_lexer_call content)

/-- Stage of section 4.4 (Identifier Resolution): the three conversion
sub-rules in the fixed order two-level, single-level, lookup. -/
def fix_stringid_conversions (content : List Char) : List Char :=
  reSub pat_lookup tmpl_lookup
    (reSub pat_conv_one tmpl_conv_one
      (reSub pat_conv_two tmpl_conv_two content))

/-- Stage of section 4.5 (Generic Parameter Propagation): add the lifetime
parameter to the impl-block header. -/
def fix_impl_block (content : List Char) : List Char :=
  reSub pat_impl_header tmpl_impl_header content

/- ### The pipeline of the main function -/

/-- The pipeline as the ordered list of named stages exactly as the main
function applies and announces them: struct fields, constructor, impl
block, factory calls, conversions. -/
def code_pipeline : List (String × (List Char → List Char)) :=
  [("Step 1: Adding lifetime and interner/common fields to TypeChecker struct...",
      add_interner_to_struct),
   ("Step 2: Updating TypeChecker::new constructor...", update_constructor),
   ("Step 3: Adding lifetime to impl block...", fix_impl_block),
   ("Step 4: Adding interner parameters to Lexer::new and Parser::new...",
      fix_lexer_parser_calls),
   ("Step 5: Converting StringId to String using interner.resolve()...",
      fix_stringid_conversions)]

/-- Run a pipeline: fold the stage functions over the text in list order. -/
def runPipeline (stages : List (String × (List Char → List Char)))
    (s : List Char) : List Char :=
  stages.foldl (fun acc st => st.2 acc) s

/-- The full transformation of the main function: the five stages applied
in the source's textual order. -/
def main_transform (content : List Char) : List Char :=
  runPipeline code_pipeline content

/-- Modelled from the spec: the five stage functions listed in the order of
the specification's component sections 4.1 (Struct Augmentation),
4.2 (Constructor Augmentation), 4.3 (Call-Site Parameter Injection),
4.4 (Identifier Resolution), 4.5 (Generic Parameter Propagation); the order
the claim asserts the pipeline applies. -/
def spec_stage_list : List (List Char → List Char) :=
  [add_interner_to_struct, update_constructor, fix_lexer_parser_calls,
   fix_stringid_conversions, fix_impl_block]

/- ### General lemmas -/

/-- A fuelled substitution scan leaves a text without any match of the
pattern unchanged. -/
theorem reSubFuel_eq_of_hasMatch_false (p : List RTok) (tm : List TItem) :
    ∀ (fuel : Nat) (s : List Char), hasMatch p s = false →
      reSubFuel p tm fuel s = s := by
  intro fuel
  induction fuel with
  | zero => intro s _; rfl
  | succ n ih =>
      intro s h
      cases s with
      | nil => rfl
      | cons c cs =>
          simp only [hasMatch, Bool.or_eq_false_iff] at h
          obtain ⟨h1, h2⟩ := h
          cases hm : matchToks p (c :: cs) none [] with
          | some r =>
              unfold hasMatchAt at h1
              rw [hm] at h1
              simp at h1
          | none =>
              simp only [reSubFuel, hm]
              exact congrArg (List.cons c) (ih cs h2)

/-- A global substitution leaves a text without any match of the pattern
unchanged. -/
theorem reSub_eq_of_hasMatch_false (p : List RTok) (tm : List TItem)
    (s : List Char) (h : hasMatch p s = false) : reSub p tm s = s :=
  reSubFuel_eq_of_hasMatch_false p tm s.length s h

/- ### Concrete texts used by the claim theorems -/

/-- A minimal struct declaration containing both the header and the anchor
field line of the Struct Augmentation stage. -/
def structText : List Char :=
  lc "pub struct TypeChecker \x7b\n    diagnostic_handler: Arc<dyn DiagnosticHandler>,\n\x7d\n"

/-- A text containing none of the ten patterns of the script. -/
def plainText : List Char := lc "fn main() \x7b\n    let x = 1;\n\x7d\n"

/- ### Claim theorems -/

/-- C1 counterexample: the code pipeline does not apply the stages in the
order of the specification's component sections.  If the stage functions of
the code pipeline, in application order, were the spec-ordered list, then
the third applied stage would be the Call-Site Parameter Injection stage;
but the third stage of the code pipeline rewrites the concrete input
"impl TypeChecker \x7b" while the injection stage leaves it unchanged. -/
theorem C1_counterexample :
    List.map Prod.snd code_pipeline ≠ spec_stage_list := by
  intro h
  simp only [code_pipeline, spec_stage_list, List.map_cons, List.map_nil,
    List.cons.injEq, and_true] at h
  have h3 : fix_impl_block = fix_lexer_parser_calls := h.2.2.1
  have h4 := congrFun h3 (lc "impl TypeChecker \x7b")
  exact absurd h4 (by decide)

/-- C1 (amended): the pipeline of the main function applies the five stages
in the source order Struct Augmentation (4.1), Constructor Augmentation
(4.2), Generic Parameter Propagation (4.5), Call-Site Parameter Injection
(4.3), Identifier Resolution (4.4), announcing them as steps 1 to 5; for
every input text its output is the left-to-right composition of the five
stage functions in that order, each stage consuming the previous stage's
output. -/
theorem C1_pipeline_order (s : List Char) :
    main_transform s =
      fix_stringid_conversions (fix_lexer_parser_calls (fix_impl_block
        (update_constructor (add_interner_to_struct s)))) ∧
    List.map Prod.fst code_pipeline =
      ["Step 1: Adding lifetime and interner/common fields to TypeChecker struct...",
       "Step 2: Updating TypeChecker::new constructor...",
       "Step 3: Adding lifetime to impl block...",
       "Step 4: Adding interner parameters to Lexer::new and Parser::new...",
       "Step 5: Converting StringId to String using interner.resolve()..."] := by
  constructor
  · simp only [main_transform, runPipeline, code_pipeline, List.foldl]
  · simp only [code_pipeline, List.map_cons, List.map_nil]

/-- C2 counterexample: applying Struct Augmentation to its own output on a
text containing header and anchor does not append the lifetime marker a
second time.  After one application the header pattern no longer matches
anywhere in the output, and after two applications the marker occurs
exactly once while each inserted field line occurs twice. -/
theorem C2_counterexample :
    hasMatch pat_struct_header (add_interner_to_struct structText) = false ∧
    countSub (lc "<\x27a>")
      (add_interner_to_struct (add_interner_to_struct structText)) = 1 ∧
    countSub (lc "    interner: &\x27a crate::string_interner::StringInterner,\n")
      (add_interner_to_struct (add_interner_to_struct structText)) = 2 := by
  refine ⟨by decide, by decide, by decide⟩

/-- C2 (amended): Struct Augmentation is not idempotent: applying it a
second time to its own output inserts the two new field-declaration lines a
second time, but does not append the lifetime marker again: the
already-marked header no longer matches the header pattern and is left
unchanged. -/
theorem C2_second_application :
    add_interner_to_struct (add_interner_to_struct structText) =
      lc "pub struct TypeChecker<\x27a> \x7b\n    diagnostic_handler: Arc<dyn DiagnosticHandler>,\n    interner: &\x27a crate::string_interner::StringInterner,\n    common: &\x27a crate::string_interner::CommonIdentifiers,\n    interner: &\x27a crate::string_interner::StringInterner,\n    common: &\x27a crate::string_interner::CommonIdentifiers,\n\x7d\n" ∧
    add_interner_to_struct (add_interner_to_struct structText) ≠
      add_interner_to_struct structText ∧
    countSub (lc "pub struct TypeChecker<\x27a> \x7b")
      (add_interner_to_struct (add_interner_to_struct structText)) = 1 := by
  refine ⟨by decide, by decide, by decide⟩

/-- C3: a stage whose header and anchor patterns are absent from the input
returns the input unchanged; this holds for each of the five stage
functions (the stages are total functions, so no error can be raised). -/
theorem C3_stage_identity (s : List Char) :
    (hasMatch pat_struct_header s = false →
     hasMatch pat_field_anchor s = false →
       add_interner_to_struct s = s) ∧
    (hasMatch pat_ctor_sig s = false →
     hasMatch pat_ctor_init s = false →
       update_constructor s = s) ∧
    (hasMatch pat_lexer_call s = false →
     hasMatch pat_parser_call s = false →
       fix_lexer_parser_calls s = s) ∧
    (hasMatch pat_conv_two s = false →
     hasMatch pat_conv_one s = false →
     hasMatch pat_lookup s = false →
       fix_stringid_conversions s = s) ∧
    (hasMatch pat_impl_header s = false →
       fix_impl_block s = s) := by
  refine ⟨fun h1 h2 => ?_, fun h1 h2 => ?_, fun h1 h2 => ?_,
    fun h1 h2 h3 => ?_, fun h1 => ?_⟩
  · unfold add_interner_to_struct
    rw [reSub_eq_of_hasMatch_false _ _ _ h1, reSub_eq_of_hasMatch_false _ _ _ h2]
  · unfold update_constructor
    rw [reSub_eq_of_hasMatch_false _ _ _ h1, reSub_eq_of_hasMatch_false _ _ _ h2]
  · unfold fix_lexer_parser_calls
    rw [reSub_eq_of_hasMatch_false _ _ _ h1, reSub_eq_of_hasMatch_false _ _ _ h2]
  · unfold fix_stringid_conversions
    rw [reSub_eq_of_hasMatch_false _ _ _ h1, reSub_eq_of_hasMatch_false _ _ _ h2,
      reSub_eq_of_hasMatch_false _ _ _ h3]
  · unfold fix_impl_block
    rw [reSub_eq_of_hasMatch_false _ _ _ h1]

/-- C3 witness: the five stage functions are the identity on a concrete
text containing none of the patterns. -/
theorem C3_stage_identity_witness :
    add_interner_to_struct plainText = plainText ∧
    update_constructor plainText = plainText ∧
    fix_lexer_parser_calls plainText = plainText ∧
    fix_stringid_conversions plainText = plainText ∧
    fix_impl_block plainText = plainText :=
  ⟨(C3_stage_identity plainText).1 (by decide) (by decide),
   (C3_stage_identity plainText).2.1 (by decide) (by decide),
   (C3_stage_identity plainText).2.2.1 (by decide) (by decide),
   (C3_stage_identity plainText).2.2.2.1 (by decide) (by decide) (by decide),
   (C3_stage_identity plainText).2.2.2.2 (by decide)⟩

/-- C4: the Identifier Resolution stage rewrites a two-level field-chain
clone to a resolver call over the whole two-level chain; after the
two-level sub-rule has consumed the occurrence, the single-level sub-rule
finds nothing left to rewrite, so no mid-chain partial rewrite appears. -/
theorem C4_two_level_resolution :
    fix_stringid_conversions (lc "foo.bar.node.clone()") =
      lc "self.interner.resolve(foo.bar.node).to_string()" ∧
    reSub pat_conv_one tmpl_conv_one
        (reSub pat_conv_two tmpl_conv_two (lc "foo.bar.node.clone()")) =
      reSub pat_conv_two tmpl_conv_two (lc "foo.bar.node.clone()") ∧
    fix_stringid_conversions (lc "let n = foo.bar.node.clone();") =
      lc "let n = self.interner.resolve(foo.bar.node).to_string();" := by
  refine ⟨by decide, by decide, by decide⟩

/-- C5: the Call-Site Injection stage adds one argument to a Lexer factory
call and two arguments to a Parser factory call, at every occurrence of the
call shape. -/
theorem C5_call_site_injection :
    fix_lexer_parser_calls (lc "Lexer::new(tokens, handler.clone())") =
      lc "Lexer::new(tokens, handler.clone(), &self.interner)" ∧
    fix_lexer_parser_calls (lc "Parser::new(tokens, handler.clone())") =
      lc "Parser::new(tokens, handler.clone(), &self.interner, &self.common)" ∧
    fix_lexer_parser_calls
        (lc "let l = Lexer::new(tokens, handler.clone());\nlet p = Parser::new(tokens, handler.clone());\nlet l2 = Lexer::new(t2, handler.clone());\nlet p2 = Parser::new(t2, handler.clone());\n") =
      lc "let l = Lexer::new(tokens, handler.clone(), &self.interner);\nlet p = Parser::new(tokens, handler.clone(), &self.interner, &self.common);\nlet l2 = Lexer::new(t2, handler.clone(), &self.interner);\nlet p2 = Parser::new(t2, handler.clone(), &self.interner, &self.common);\n" := by
  refine ⟨by decide, by decide, by decide⟩

/-- C6: the Struct Augmentation header rule and the Generic Parameter
Propagation rule are global substitutions: with the target header appearing
twice, both occurrences are rewritten identically. -/
theorem C6_global_substitution :
    add_interner_to_struct
        (lc "pub struct TypeChecker \x7b\x7d\npub struct TypeChecker \x7b\x7d\n") =
      lc "pub struct TypeChecker<\x27a> \x7b\x7d\npub struct TypeChecker<\x27a> \x7b\x7d\n" ∧
    fix_impl_block
        (lc "impl TypeChecker \x7b\n\x7d\nimpl TypeChecker \x7b\n\x7d\n") =
      lc "impl<\x27a> TypeChecker<\x27a> \x7b\n\x7d\nimpl<\x27a> TypeChecker<\x27a> \x7b\n\x7d\n" := by
  refine ⟨by decide, by decide⟩

/-- C7: on an input containing the header line and, later, the anchor
field line, the Struct Augmentation stage appends the lifetime marker to
the header and inserts exactly the two new field lines immediately after
the anchor line, leaving every other line unchanged and in the same
relative order. -/
theorem C7_struct_augmentation_frame :
    add_interner_to_struct
        (lc "use foo;\npub struct TypeChecker \x7b\n    source: String,\n    diagnostic_handler: Arc<dyn DiagnosticHandler>,\n    extra: u32,\n\x7d\n") =
      lc "use foo;\npub struct TypeChecker<\x27a> \x7b\n    source: String,\n    diagnostic_handler: Arc<dyn DiagnosticHandler>,\n    interner: &\x27a crate::string_interner::StringInterner,\n    common: &\x27a crate::string_interner::CommonIdentifiers,\n    extra: u32,\n\x7d\n" := by
  decide

/-- C8: an interned identifier held as a bare variable and passed directly,
with no field-chain clone and no matching lookup shape, is rewritten by no
stage: the full five-stage pipeline leaves such text unmodified. -/
theorem C8_bare_identifier_gap :
    main_transform (lc "        self.exports.add_named(name, export_item);\n") =
      lc "        self.exports.add_named(name, export_item);\n" ∧
    main_transform (lc "let sym = Symbol::new(name, kind);\n") =
      lc "let sym = Symbol::new(name, kind);\n" := by
  refine ⟨by decide, by decide⟩

/-- C9: on a field chain of three or more components ending in a node
clone, the Identifier Resolution stage rewrites only the trailing two
components: the resolver call is spliced into the middle of the chain, not
wrapped around the whole chain. -/
theorem C9_mid_chain_splice :
    fix_stringid_conversions (lc "a.b.c.node.clone()") =
      lc "a.self.interner.resolve(b.c.node).to_string()" ∧
    fix_stringid_conversions (lc "w.x.y.z.node.clone()") =
      lc "w.x.self.interner.resolve(y.z.node).to_string()" := by
  refine ⟨by decide, by decide⟩

/-- C10: the Call-Site Injection stage rewrites a factory call only when
the first argument contains no comma and the second argument is literally
the handler clone immediately before the closing parenthesis; calls with a
comma inside the first argument, with a different second argument, or with
extra text before the closing parenthesis are left unchanged, while a
comma-free nested first argument is rewritten. -/
theorem C10_call_shape_guard :
    fix_lexer_parser_calls (lc "Lexer::new(make(a, b), handler.clone())") =
      lc "Lexer::new(make(a, b), handler.clone())" ∧
    fix_lexer_parser_calls (lc "Parser::new(self.tokens(x, y), handler.clone())") =
      lc "Parser::new(self.tokens(x, y), handler.clone())" ∧
    fix_lexer_parser_calls (lc "Lexer::new(a, b, handler.clone())") =
      lc "Lexer::new(a, b, handler.clone())" ∧
    fix_lexer_parser_calls (lc "Lexer::new(tokens, other.clone())") =
      lc "Lexer::new(tokens, other.clone())" ∧
    fix_lexer_parser_calls (lc "Parser::new(tokens, handler.clone() )") =
      lc "Parser::new(tokens, handler.clone() )" ∧
    fix_lexer_parser_calls (lc "Lexer::new(self.lex_input(src), handler.clone())") =
      lc "Lexer::new(self.lex_input(src), handler.clone(), &self.interner)" := by
  refine ⟨by decide, by decide, by decide, by decide, by decide, by decide⟩

end FixTC
